import Mathlib

/-!
Shallow embedding of the locomotion / session-lifecycle core of `src/app.js`
(A-Frame components `hotspot`, `auto-walk`, `comfort-mode`, `auto-vr`),
with theorems checking the natural-language specification against it.

Numbers are modelled as rationals (`ℚ`); JavaScript numbers that may be
non-finite carry an explicit finiteness flag.
-/

namespace VR

/-- A 3-component vector, mirroring `THREE.Vector3` as used by the code. -/
structure Vec3 where
  x : ℚ
  y : ℚ
  z : ℚ
deriving DecidableEq, Repr

/-- Component-wise linear interpolation, as `THREE.Vector3.lerp`:
each component becomes `this + (v - this) * alpha`. -/
def lerp (a b : Vec3) (t : ℚ) : Vec3 :=
  ⟨a.x + (b.x - a.x) * t, a.y + (b.y - a.y) * t, a.z + (b.z - a.z) * t⟩

/-- Squared Euclidean distance between two vectors. -/
def distSq (a b : Vec3) : ℚ :=
  (a.x - b.x) ^ 2 + (a.y - b.y) ^ 2 + (a.z - b.z) ^ 2

/-- The easing used by the `hotspot` animation (src/app.js line 118):
`k < 0.5 ? 2 * k * k : -1 + (4 - 2 * k) * k`. -/
def ease (k : ℚ) : ℚ :=
  if k < 1 / 2 then 2 * k * k else -1 + (4 - 2 * k) * k

/-- The specification's quadratic ease-in-out reference:
`k < 0.5 ? 2·k² : 1 − (−2·k + 2)²/2`.  Written from the spec's words, to be
compared with `ease`, which is written from the source. -/
def easeSpecRef (k : ℚ) : ℚ :=
  if k < 1 / 2 then 2 * k ^ 2 else 1 - (-2 * k + 2) ^ 2 / 2

/-- One in-flight `hotspot` teleport animation: the closure state captured by
`animate` (src/app.js lines 105–123): start position `fr`, target `tgt`,
click time `start`, duration `dur`. -/
structure Anim where
  fr : Vec3
  tgt : Vec3
  start : ℚ
  dur : ℚ
deriving DecidableEq, Repr

/-- One evaluation of the `animate` closure at wall-clock time `now`
(src/app.js lines 115–122): computes `k = min(1, (now - start) / dur)`,
writes `lerp(from, to, ease(k))` to the rig position, and reschedules itself
(`requestAnimationFrame`) iff `k < 1`.  Returns (written position, reschedules?). -/
def animStep (now : ℚ) (a : Anim) : Vec3 × Bool :=
  let k := min 1 ((now - a.start) / a.dur)
  (lerp a.fr a.tgt (ease k), decide (k < 1))

/-- One render frame: every pending `animate` callback runs in scheduling
order; each writes the rig position (later writes overwrite earlier ones
within the frame) and re-enqueues itself iff unfinished.  Returns the queue
for the next frame, the final rig position, and the list of all position
writes performed during the frame, in order. -/
def runFrame (now : ℚ) : List Anim → Vec3 → List Anim × Vec3 × List Vec3
  | [], p => ([], p, [])
  | a :: rest, _p =>
    let s := animStep now a
    let r := runFrame now rest s.1
    ((if s.2 then [a] else []) ++ r.1, r.2.1, s.1 :: r.2.2)

/-- Teleport A of the superseding scenario: from the origin to `(10,0,0)`
over 400 ms, clicked at `t = 0`. -/
def animA : Anim := ⟨⟨0, 0, 0⟩, ⟨10, 0, 0⟩, 0, 400⟩

/-- Rig position after the frame at `t = 100` in which only A is in flight. -/
def posAfterFrame1 : Vec3 := (runFrame 100 [animA] ⟨0, 0, 0⟩).2.1

/-- Teleport B, clicked at `t = 100` while A is still in flight: it captures
the current rig position as its start and targets `(0,0,20)` over 400 ms. -/
def animB : Anim := ⟨posAfterFrame1, ⟨0, 0, 20⟩, 100, 400⟩

/-- The frame at `t = 200`, with both A's and B's callbacks pending
(A was rescheduled, B was scheduled at its click). -/
def c1Scenario : List Anim × Vec3 × List Vec3 :=
  runFrame 200 ((runFrame 100 [animA] ⟨0, 0, 0⟩).1 ++ [animB]) posAfterFrame1

/-- Claim C5: for every `k` in `[0,1]` the easing computed by the teleport
animation equals the spec's quadratic ease-in-out reference, and the written
position is the component-wise lerp of the captured start toward the target
by that eased value. -/
theorem ease_and_lerp_spec (k now : ℚ) (a : Anim) (h0 : 0 ≤ k) (h1 : k ≤ 1) :
    ease k = easeSpecRef k ∧
    (animStep now a).1 = lerp a.fr a.tgt (ease (min 1 ((now - a.start) / a.dur))) := by
  constructor
  · unfold ease easeSpecRef
    split <;> ring
  · rfl

/-- Witness for `ease_and_lerp_spec` at `k = 3/4`, `now = 100`, animation A. -/
theorem ease_and_lerp_spec_witness :
    ease (3 / 4) = easeSpecRef (3 / 4) ∧
    (animStep 100 animA).1 =
      lerp animA.fr animA.tgt (ease (min 1 ((100 - animA.start) / animA.dur))) :=
  ease_and_lerp_spec (3 / 4) 100 animA (by norm_num) (by norm_num)

/-- Claim C1 (code bug): the `animate` closure carries no generation token,
so after teleport B is issued at `t = 100`, A's still-scheduled callback at
`t = 200` writes `(5,0,0)` — strictly closer to A's target than the rig was —
and reschedules itself, contradicting the spec's invariant that a superseded
animation's future writes never land. -/
theorem stale_teleport_write_lands :
    c1Scenario.2.2.head? = some ⟨5, 0, 0⟩ ∧
    distSq ⟨5, 0, 0⟩ animA.tgt < distSq posAfterFrame1 animA.tgt ∧
    animA ∈ c1Scenario.1 := by
  norm_num [c1Scenario, posAfterFrame1, runFrame, animStep, animA, animB, lerp,
    ease, distSq, min_def]

/-- A JavaScript number as received at the interaction boundary: its rational
value, and whether it is finite (`isFinite`).  A non-finite number (NaN or
±Infinity) carries `finite = false` and its `val` is irrelevant. -/
structure JsNum where
  val : ℚ
  finite : Bool
deriving DecidableEq, Repr

/-- State touched by the `hotspot` component's click handler: the rig position
(`none` when no `#rig` element is resolvable) and the queue of scheduled
`animate` callbacks. -/
structure HotspotState where
  rig : Option Vec3
  queue : List Anim
deriving DecidableEq, Repr

/-- The `hotspot` click handler `_onClick` (src/app.js lines 102–124):
bail out if no rig; build the target and bail out silently if any component
is non-finite; if `smoothMs <= 0` assign the position immediately; otherwise
capture `from`, `start = now` and schedule an `animate` callback. -/
def onClick (s : HotspotState) (tx ty tz : JsNum) (smoothMs : ℤ) (now : ℚ) :
    HotspotState :=
  match s.rig with
  | none => s
  | some p =>
    if !(tx.finite && ty.finite && tz.finite) then s
    else if smoothMs ≤ 0 then { s with rig := some ⟨tx.val, ty.val, tz.val⟩ }
    else { s with queue := s.queue ++ [⟨p, ⟨tx.val, ty.val, tz.val⟩, now, (smoothMs : ℚ)⟩] }

/-- State of the `auto-walk` component together with the rig position it
integrates: `walking` flag, `vrOnly` gate option, whether the scene is in
vr-mode, and the rig position (`this.el.object3D.position`). -/
structure WalkState where
  walking : Bool
  vrOnly : Bool
  vrMode : Bool
  pos : Vec3
deriving DecidableEq, Repr

/-- The `auto-walk` run condition `_shouldRun` (src/app.js line 30):
`walking && (!vrOnly || scene is vr-mode)`. -/
def shouldRun (s : WalkState) : Bool :=
  s.walking && (!s.vrOnly || s.vrMode)

/-- The fallback forward axis `(0, 0, -1)` used by `_getForward` when no
camera is resolvable or the horizontal projection of the view direction
vanishes (src/app.js lines 34, 38). -/
def defaultForward : Vec3 := ⟨0, 0, -1⟩

/-- The `auto-walk` forward computation `_getForward` (src/app.js lines
33–41): no camera, or a camera view direction whose horizontal (y-zeroed)
projection has zero length, yields `defaultForward`; otherwise the unit
normalization of the horizontal projection, which is irrational in general
and is therefore supplied by the caller as `unitH` and characterized by
hypotheses (`unitH.y = 0`, unit length) in the theorems. -/
def getForward (cam : Option Vec3) (unitH : Vec3) : Vec3 :=
  match cam with
  | none => defaultForward
  | some d => if d.x ^ 2 + d.z ^ 2 = 0 then defaultForward else unitH

/-- The `auto-walk` per-frame `tick` (src/app.js lines 43–51): no-op unless
`_shouldRun()`; otherwise `delta = min(100, dt) / 1000` and the rig position's
x and z advance by `fwd * speed * delta`; y is never written. -/
def walkTick (fwd : Vec3) (speed dt : ℚ) (s : WalkState) : WalkState :=
  if shouldRun s then
    { s with pos := ⟨s.pos.x + fwd.x * speed * (min 100 dt / 1000),
                     s.pos.y,
                     s.pos.z + fwd.z * speed * (min 100 dt / 1000)⟩ }
  else s

/-- Whether a teleport animation is in flight: some `animate` callback is
still scheduled. -/
def teleportInFlight (q : List Anim) : Bool :=
  !q.isEmpty

/-- One whole render frame over the shared rig position: the `auto-walk`
tick runs, then every pending `animate` callback runs.  Returns the new walk
state and animation queue, and the ordered list of all rig-position writes
performed in the frame (the walk integration's write first, when it ran). -/
def frameStep (fwd : Vec3) (speed dt now : ℚ) (w : WalkState) (q : List Anim) :
    (WalkState × List Anim) × List Vec3 :=
  let w1 := walkTick fwd speed dt w
  let r := runFrame now q w1.pos
  (({ w1 with pos := r.2.1 }, r.1), (if shouldRun w then [w1.pos] else []) ++ r.2.2)

/-- A walk state that is armed with the vr gate satisfied, rig at the origin. -/
def walkDemo : WalkState := ⟨true, false, false, ⟨0, 0, 0⟩⟩

/-- State of the `comfort-mode` component: the rig rotation in degrees
(`none` when no `#rig` element was resolvable at init) and the snap
cooldown timestamp. -/
structure ComfortState where
  rig : Option (ℚ × ℚ × ℚ)
  cooldown : ℚ
deriving DecidableEq, Repr

/-- The `comfort-mode` snap routine `trySnap` (src/app.js lines 316–323):
ignore the trigger while `now < cooldown`; otherwise set
`cooldown = now + 180` and — only if a rig was resolvable — add
`±snapAngle` degrees to the rig's y rotation.  (The code applies
`radToDeg(degToRad(snapAngle))`, which is `snapAngle` exactly.)  Note the
cooldown is written before the rig guard, exactly as in the source. -/
def trySnap (snapAngle : ℚ) (dir : ℤ) (now : ℚ) (s : ComfortState) : ComfortState :=
  if now < s.cooldown then s
  else
    match s.rig with
    | none => { s with cooldown := now + 180 }
    | some (rx, ry, rz) =>
      ⟨some (rx, ry + (if 0 < dir then snapAngle else -snapAngle), rz), now + 180⟩

/-- The `comfort-mode` axis handler `_onAxis` (src/app.js lines 329–334):
`x > 0.8` triggers a right snap, `x < -0.8` a left snap, values in between
trigger nothing. -/
def onAxis (snapAngle x now : ℚ) (s : ComfortState) : ComfortState :=
  let s1 := if 4 / 5 < x then trySnap snapAngle 1 now s else s
  if x < -(4 / 5) then trySnap snapAngle (-1) now s1 else s1

/-- Claim C2 (code bug): `auto-walk`'s tick checks only its own run condition
and never the teleport queue, so in a frame with a teleport in flight the walk
integration still writes the rig position: the frame's first position write is
the walk displacement, distinct from the prior position. -/
theorem walk_writes_during_teleport :
    teleportInFlight [animA] = true ∧
    shouldRun walkDemo = true ∧
    (frameStep defaultForward (6 / 5) 16 100 walkDemo [animA]).2.head? =
      some ⟨0, 0, -(12 / 625)⟩ ∧
    (⟨0, 0, -(12 / 625)⟩ : Vec3) ≠ walkDemo.pos := by
  refine ⟨rfl, rfl, ?_, by norm_num [walkDemo, Vec3.mk.injEq]⟩
  norm_num [frameStep, walkTick, shouldRun, walkDemo, defaultForward, min_def,
    Vec3.mk.injEq]

/-- Claim C6: whenever the walk run condition holds and the forward direction
is horizontal and unit length, the tick displaces the rig by
`speed * (min(dt,100)/1000)` along that direction, leaves y unchanged, and a
single 500 ms delta yields displacement magnitude `speed * 0.1`, which differs
from `speed * 0.5` for positive speed. -/
theorem walk_tick_spec (fwd : Vec3) (speed dt : ℚ) (s : WalkState)
    (hrun : shouldRun s = true) (hy : fwd.y = 0)
    (hunit : fwd.x ^ 2 + fwd.z ^ 2 = 1) :
    (walkTick fwd speed dt s).pos.y = s.pos.y ∧
    (walkTick fwd speed dt s).pos.x - s.pos.x = fwd.x * speed * (min 100 dt / 1000) ∧
    (walkTick fwd speed dt s).pos.z - s.pos.z = fwd.z * speed * (min 100 dt / 1000) ∧
    ((walkTick fwd speed dt s).pos.x - s.pos.x) ^ 2 +
      ((walkTick fwd speed dt s).pos.z - s.pos.z) ^ 2 =
      (speed * (min 100 dt / 1000)) ^ 2 ∧
    (dt = 500 →
      ((walkTick fwd speed dt s).pos.x - s.pos.x) ^ 2 +
        ((walkTick fwd speed dt s).pos.z - s.pos.z) ^ 2 = (speed * (1 / 10)) ^ 2 ∧
      (0 < speed → (speed * (1 / 10)) ^ 2 ≠ (speed * (5 / 10)) ^ 2)) := by
  have hx : (walkTick fwd speed dt s).pos.x =
      s.pos.x + fwd.x * speed * (min 100 dt / 1000) := by
    simp [walkTick, hrun]
  have hz : (walkTick fwd speed dt s).pos.z =
      s.pos.z + fwd.z * speed * (min 100 dt / 1000) := by
    simp [walkTick, hrun]
  have hyy : (walkTick fwd speed dt s).pos.y = s.pos.y := by
    simp [walkTick, hrun]
  refine ⟨hyy, by rw [hx]; ring, by rw [hz]; ring, ?_, ?_⟩
  · rw [hx, hz]
    have h : (s.pos.x + fwd.x * speed * (min 100 dt / 1000) - s.pos.x) ^ 2 +
        (s.pos.z + fwd.z * speed * (min 100 dt / 1000) - s.pos.z) ^ 2 =
        (fwd.x ^ 2 + fwd.z ^ 2) * (speed * (min 100 dt / 1000)) ^ 2 := by ring
    rw [h, hunit, one_mul]
  · intro hdt
    subst hdt
    have hmin : min (100 : ℚ) 500 = 100 := by norm_num [min_def]
    constructor
    · rw [hx, hz, hmin]
      have h : (s.pos.x + fwd.x * speed * (100 / 1000) - s.pos.x) ^ 2 +
          (s.pos.z + fwd.z * speed * (100 / 1000) - s.pos.z) ^ 2 =
          (fwd.x ^ 2 + fwd.z ^ 2) * (speed * (1 / 10)) ^ 2 := by ring
      rw [h, hunit, one_mul]
    · intro hs heq
      nlinarith [sq_nonneg speed]

/-- Witness for `walk_tick_spec`: unit horizontal forward `(3/5, 0, -4/5)`,
speed `6/5`, a 500 ms delta, starting from the armed demo state. -/
theorem walk_tick_spec_witness :
    (walkTick ⟨3 / 5, 0, -(4 / 5)⟩ (6 / 5) 500 walkDemo).pos.y = walkDemo.pos.y ∧
    (walkTick ⟨3 / 5, 0, -(4 / 5)⟩ (6 / 5) 500 walkDemo).pos.x - walkDemo.pos.x =
      (3 / 5) * (6 / 5) * (min 100 500 / 1000) ∧
    (walkTick ⟨3 / 5, 0, -(4 / 5)⟩ (6 / 5) 500 walkDemo).pos.z - walkDemo.pos.z =
      (-(4 / 5)) * (6 / 5) * (min 100 500 / 1000) ∧
    ((walkTick ⟨3 / 5, 0, -(4 / 5)⟩ (6 / 5) 500 walkDemo).pos.x - walkDemo.pos.x) ^ 2 +
      ((walkTick ⟨3 / 5, 0, -(4 / 5)⟩ (6 / 5) 500 walkDemo).pos.z - walkDemo.pos.z) ^ 2 =
      ((6 / 5) * (min 100 500 / 1000)) ^ 2 ∧
    ((500 : ℚ) = 500 →
      ((walkTick ⟨3 / 5, 0, -(4 / 5)⟩ (6 / 5) 500 walkDemo).pos.x - walkDemo.pos.x) ^ 2 +
        ((walkTick ⟨3 / 5, 0, -(4 / 5)⟩ (6 / 5) 500 walkDemo).pos.z - walkDemo.pos.z) ^ 2 =
        ((6 / 5) * (1 / 10)) ^ 2 ∧
      ((0 : ℚ) < 6 / 5 → ((6 / 5 : ℚ) * (1 / 10)) ^ 2 ≠ ((6 / 5) * (5 / 10)) ^ 2)) :=
  walk_tick_spec ⟨3 / 5, 0, -(4 / 5)⟩ (6 / 5) 500 walkDemo rfl rfl (by norm_num)

/-- Claim C4: with a rig resolvable, a snap trigger inside the cooldown
window is ignored entirely; outside it, yaw changes by `±snapAngle` and the
cooldown becomes `now + 180`.  Hence two triggers 50 ms apart produce one
yaw change, two triggers 200 ms apart produce two; and an axis excursion
past `0.8` is exactly a `+1` trigger. -/
theorem snap_cooldown_spec (a t now x : ℚ) (d : ℤ) (s : ComfortState)
    (rx ry rz : ℚ) (hrig : s.rig = some (rx, ry, rz)) :
    (now < s.cooldown → trySnap a d now s = s) ∧
    (s.cooldown ≤ now →
      trySnap a d now s =
        ⟨some (rx, ry + (if 0 < d then a else -a), rz), now + 180⟩) ∧
    (s.cooldown ≤ t →
      trySnap a d (t + 50) (trySnap a d t s) = trySnap a d t s) ∧
    (s.cooldown ≤ t →
      (trySnap a d (t + 200) (trySnap a d t s)).rig =
        some (rx, ry + (if 0 < d then a else -a) + (if 0 < d then a else -a), rz)) ∧
    (4 / 5 < x → onAxis a x now s = trySnap a 1 now s) := by
  have hfirst : ∀ u : ℚ, s.cooldown ≤ u →
      trySnap a d u s = ⟨some (rx, ry + (if 0 < d then a else -a), rz), u + 180⟩ := by
    intro u hu
    rw [trySnap, if_neg (not_lt.mpr hu), hrig]
  refine ⟨?_, hfirst now, ?_, ?_, ?_⟩
  · intro h
    rw [trySnap, if_pos h]
  · intro h
    rw [hfirst t h, trySnap, if_pos (by linarith : t + 50 < t + 180)]
  · intro h
    rw [hfirst t h, trySnap,
      if_neg (not_lt.mpr (by linarith : t + 180 ≤ t + 200))]
  · intro hx
    rw [onAxis]
    simp only [if_pos hx, if_neg (not_lt.mpr (by linarith : -(4 / 5) ≤ x))]

/-- Witness for `snap_cooldown_spec`: snap angle 30, rig at rotation
`(0, 90, 0)`, cooldown 0, triggers at `t = 1000`, axis value `0.9`. -/
theorem snap_cooldown_spec_witness :
    ((1000 : ℚ) < (⟨some (0, 90, 0), 0⟩ : ComfortState).cooldown →
      trySnap 30 1 1000 ⟨some (0, 90, 0), 0⟩ = ⟨some (0, 90, 0), 0⟩) ∧
    ((⟨some (0, 90, 0), 0⟩ : ComfortState).cooldown ≤ 1000 →
      trySnap 30 1 1000 ⟨some (0, 90, 0), 0⟩ =
        ⟨some (0, 90 + (if 0 < (1 : ℤ) then (30 : ℚ) else -30), 0), 1000 + 180⟩) ∧
    ((⟨some (0, 90, 0), 0⟩ : ComfortState).cooldown ≤ 1000 →
      trySnap 30 1 (1000 + 50) (trySnap 30 1 1000 ⟨some (0, 90, 0), 0⟩) =
        trySnap 30 1 1000 ⟨some (0, 90, 0), 0⟩) ∧
    ((⟨some (0, 90, 0), 0⟩ : ComfortState).cooldown ≤ 1000 →
      (trySnap 30 1 (1000 + 200) (trySnap 30 1 1000 ⟨some (0, 90, 0), 0⟩)).rig =
        some (0, 90 + (if 0 < (1 : ℤ) then (30 : ℚ) else -30) +
          (if 0 < (1 : ℤ) then (30 : ℚ) else -30), 0)) ∧
    ((4 / 5 : ℚ) < 9 / 10 →
      onAxis 30 (9 / 10) 1000 ⟨some (0, 90, 0), 0⟩ =
        trySnap 30 1 1000 ⟨some (0, 90, 0), 0⟩) :=
  snap_cooldown_spec 30 1000 1000 (9 / 10) 1 ⟨some (0, 90, 0), 0⟩ 0 90 0 rfl

/-- Claim C7 counterexample: a snap trigger with no resolvable rig is not
free of state changes — it still advances the cooldown timestamp (the
cooldown write precedes the rig guard in `trySnap`); and the walk tick with
no resolvable camera is not a no-op — it substitutes the fixed default
forward axis and still moves the rig. -/
theorem guard_counterexample :
    trySnap 30 1 0 ⟨none, 0⟩ ≠ (⟨none, 0⟩ : ComfortState) ∧
    (walkTick (getForward none ⟨0, 0, 0⟩) (6 / 5) 16 walkDemo).pos ≠ walkDemo.pos := by
  constructor
  · intro h
    have hc : (trySnap 30 1 0 ⟨none, 0⟩).cooldown = 180 := by
      norm_num [trySnap]
    rw [h] at hc
    norm_num at hc
  · intro h
    have hc : (walkTick (getForward none ⟨0, 0, 0⟩) (6 / 5) 16 walkDemo).pos.z =
        -(12 / 625) := by
      norm_num [walkTick, getForward, defaultForward, shouldRun, walkDemo, min_def]
    rw [h] at hc
    norm_num [walkDemo] at hc

/-- Claim C7 as amended: with no resolvable rig the teleport click is a full
no-op, and the snap trigger applies no rotation (while still advancing its
cooldown to `now + 180` when outside the window); with no resolvable camera
the walk forward computation yields the fixed default axis rather than
making the tick a no-op. -/
theorem guarded_noop_amended (hs : HotspotState) (tx ty tz : JsNum) (dms : ℤ)
    (now : ℚ) (cs : ComfortState) (a t : ℚ) (d : ℤ) (u : Vec3)
    (h1 : hs.rig = none) (h2 : cs.rig = none) :
    onClick hs tx ty tz dms now = hs ∧
    (trySnap a d t cs).rig = none ∧
    (cs.cooldown ≤ t → (trySnap a d t cs).cooldown = t + 180) ∧
    getForward none u = defaultForward := by
  refine ⟨?_, ?_, ?_, rfl⟩
  · rw [onClick, h1]
  · rw [trySnap]
    split
    · exact h2
    · rw [h2]
  · intro h
    rw [trySnap, if_neg (not_lt.mpr h), h2]

/-- Witness for `guarded_noop_amended`: empty hotspot state and comfort state
with no rig, trigger at `t = 7`. -/
theorem guarded_noop_amended_witness :
    onClick ⟨none, []⟩ ⟨1, true⟩ ⟨2, true⟩ ⟨3, true⟩ 350 0 = ⟨none, []⟩ ∧
    (trySnap 30 1 7 ⟨none, 0⟩).rig = none ∧
    ((⟨none, 0⟩ : ComfortState).cooldown ≤ 7 →
      (trySnap 30 1 7 ⟨none, 0⟩).cooldown = 7 + 180) ∧
    getForward none ⟨5, 5, 5⟩ = defaultForward :=
  guarded_noop_amended ⟨none, []⟩ ⟨1, true⟩ ⟨2, true⟩ ⟨3, true⟩ 350 0
    ⟨none, 0⟩ 30 7 1 ⟨5, 5, 5⟩ rfl rfl

/-- Claim C8: a teleport request whose target has any non-finite component is
a silent no-op: the rig position is unchanged and no animation is scheduled. -/
theorem nonfinite_target_noop (s : HotspotState) (tx ty tz : JsNum) (dms : ℤ)
    (now : ℚ)
    (h : tx.finite = false ∨ ty.finite = false ∨ tz.finite = false) :
    onClick s tx ty tz dms now = s := by
  rw [onClick]
  cases hr : s.rig with
  | none => rfl
  | some p =>
    have hb : (tx.finite && ty.finite && tz.finite) = false := by
      rcases h with h | h | h <;> simp [h]
    simp [hb]

/-- Witness for `nonfinite_target_noop`: a target whose y component is
non-finite. -/
theorem nonfinite_target_noop_witness :
    onClick ⟨some ⟨0, 0, 0⟩, []⟩ ⟨1, true⟩ ⟨0, false⟩ ⟨3, true⟩ 350 0 =
      ⟨some ⟨0, 0, 0⟩, []⟩ :=
  nonfinite_target_noop ⟨some ⟨0, 0, 0⟩, []⟩ ⟨1, true⟩ ⟨0, false⟩ ⟨3, true⟩ 350 0
    (Or.inr (Or.inl rfl))

/-- Claim C9: a teleport request with a finite target and duration `≤ 0`
assigns the rig position to the target immediately and schedules no
per-frame continuation. -/
theorem instant_teleport (s : HotspotState) (p : Vec3) (tx ty tz : JsNum)
    (dms : ℤ) (now : ℚ) (hr : s.rig = some p)
    (hf : tx.finite = true ∧ ty.finite = true ∧ tz.finite = true)
    (hd : dms ≤ 0) :
    onClick s tx ty tz dms now =
      { s with rig := some ⟨tx.val, ty.val, tz.val⟩ } ∧
    (onClick s tx ty tz dms now).queue = s.queue := by
  obtain ⟨hfx, hfy, hfz⟩ := hf
  have hmain : onClick s tx ty tz dms now =
      { s with rig := some ⟨tx.val, ty.val, tz.val⟩ } := by
    rw [onClick, hr]
    simp [hfx, hfy, hfz, hd]
  exact ⟨hmain, by rw [hmain]⟩

/-- Witness for `instant_teleport`: rig at the origin, finite target
`(4, 0, -2)`, duration `0`. -/
theorem instant_teleport_witness :
    onClick ⟨some ⟨0, 0, 0⟩, []⟩ ⟨4, true⟩ ⟨0, true⟩ ⟨-2, true⟩ 0 0 =
      ⟨some ⟨4, 0, -2⟩, []⟩ ∧
    (onClick ⟨some ⟨0, 0, 0⟩, []⟩ ⟨4, true⟩ ⟨0, true⟩ ⟨-2, true⟩ 0 0).queue = [] :=
  instant_teleport ⟨some ⟨0, 0, 0⟩, []⟩ ⟨0, 0, 0⟩ ⟨4, true⟩ ⟨0, true⟩ ⟨-2, true⟩ 0 0
    rfl ⟨rfl, rfl, rfl⟩ (by norm_num)

/-- Outcome of an `enterVR()` call as seen by `auto-vr`: the returned promise
resolved, the promise rejected (a user gesture is required), or no promise
was returned at all (older capability surface). -/
inductive EnterResult where
  | success
  | rejected
  | noPromise
deriving DecidableEq, Repr

/-- State of the `auto-vr` component: the `overlay` variable (`none` when no
overlay element exists, `some used` when it exists with its single-use button
handler already consumed or not), whether the scene is in vr-mode, the number
of `enterVR` requests issued by the overlay's button, and the number of
overlay elements ever created. -/
structure VrState where
  overlay : Option Bool
  inVR : Bool
  requests : ℕ
  created : ℕ
deriving DecidableEq, Repr

/-- `showOverlay` (src/app.js lines 197–229): if an overlay already exists the
call returns immediately; otherwise a fresh overlay element with an unused
button is created and appended. -/
def showOverlay (s : VrState) : VrState :=
  match s.overlay with
  | some _ => s
  | none => { s with overlay := some false, created := s.created + 1 }

/-- `cleanup` (src/app.js lines 192–195): remove the overlay element from the
document if present, then null the variable.  On a state with no overlay this
changes nothing. -/
def cleanup (s : VrState) : VrState :=
  { s with overlay := none }

/-- The `enter-vr` scene event listener (src/app.js line 235): the scene is
now in vr-mode and any overlay is removed. -/
def onEnterVR (s : VrState) : VrState :=
  { cleanup s with inVR := true }

/-- `tryEnter` (src/app.js lines 178–189), given the host outcome: nothing if
already in vr-mode; on a resolved promise the scene enters vr-mode and the
overlay is cleaned up; on a rejected promise the overlay is shown; with no
promise the overlay is shown after a fixed grace delay. -/
def tryEnter (res : EnterResult) (s : VrState) : VrState :=
  if s.inVR then s
  else
    match res with
    | .success => { cleanup s with inVR := true }
    | .rejected => showOverlay s
    | .noPromise => showOverlay s

/-- One click on the overlay's button (src/app.js lines 221–225): the
listener is registered with `once: true`, so a consumed handler does nothing.
A live handler issues one `enterVR` request and consumes itself; a resolved
promise leads to `cleanup` (and vr-mode), a rejected one to nothing (the
`then` has no rejection handler), and no promise to an immediate `cleanup`. -/
def btnClick (res : EnterResult) (s : VrState) : VrState :=
  match s.overlay with
  | none => s
  | some used =>
    if used then s
    else
      match res with
      | .success =>
        { s with overlay := none, inVR := true, requests := s.requests + 1 }
      | .rejected =>
        { s with overlay := some true, requests := s.requests + 1 }
      | .noPromise =>
        { s with overlay := none, requests := s.requests + 1 }

/-- A sequence of overlay-button clicks with their host outcomes, in order. -/
def runClicks : List EnterResult → VrState → VrState
  | [], s => s
  | r :: rest, s => runClicks rest (btnClick r s)

/-- A button click on a state whose overlay is absent or already consumed
changes nothing. -/
theorem btnClick_inert (r : EnterResult) (s : VrState)
    (h : s.overlay = none ∨ s.overlay = some true) : btnClick r s = s := by
  rcases h with h | h <;> simp [btnClick, h]

/-- A click sequence on a state whose overlay is absent or already consumed
changes nothing. -/
theorem runClicks_inert (evs : List EnterResult) (s : VrState)
    (h : s.overlay = none ∨ s.overlay = some true) : runClicks evs s = s := by
  induction evs with
  | nil => rfl
  | cons r rest ih => rw [runClicks, btnClick_inert r s h, ih]

/-- A click on a fresh overlay issues exactly one request and leaves the
overlay absent or consumed. -/
theorem btnClick_fresh (r : EnterResult) (s : VrState)
    (h : s.overlay = some false) :
    ((btnClick r s).overlay = none ∨ (btnClick r s).overlay = some true) ∧
    (btnClick r s).requests = s.requests + 1 := by
  cases r <;> simp [btnClick, h]

/-- Claim C3: a rejected automatic entry request creates the overlay exactly
once and showing it again while it exists creates no second overlay; removing
an absent overlay is a no-op; and the overlay is removed on every transition
to vr-mode — automatic success, an external `enter-vr` notification, or the
overlay button's own success. -/
theorem overlay_lifecycle (s : VrState) (h : s.overlay = none)
    (hv : s.inVR = false) :
    ((tryEnter .rejected s).overlay = some false ∧
      (tryEnter .rejected s).created = s.created + 1 ∧
      showOverlay (tryEnter .rejected s) = tryEnter .rejected s ∧
      (showOverlay (showOverlay s)).created = s.created + 1) ∧
    cleanup s = s ∧
    (∀ u : VrState, (onEnterVR u).overlay = none) ∧
    (∀ u : VrState, u.inVR = false → (tryEnter .success u).overlay = none) ∧
    (∀ u : VrState, u.overlay = some false → (btnClick .success u).overlay = none) := by
  have hshow : tryEnter .rejected s =
      { s with overlay := some false, created := s.created + 1 } := by
    rw [tryEnter, if_neg (by rw [hv]; exact Bool.false_ne_true), showOverlay, h]
  refine ⟨⟨by rw [hshow], by rw [hshow], ?_, ?_⟩, ?_, ?_, ?_, ?_⟩
  · rw [hshow, showOverlay]
  · simp [showOverlay, h]
  · cases s
    simp_all [cleanup]
  · intro u
    rfl
  · intro u hu
    rw [tryEnter, if_neg (by rw [hu]; exact Bool.false_ne_true)]
    rfl
  · intro u hu
    rw [btnClick, hu]
    rfl

/-- Witness for `overlay_lifecycle`: the initial state — no overlay, not in
vr-mode, no requests, no overlays created. -/
theorem overlay_lifecycle_witness :
    ((tryEnter .rejected ⟨none, false, 0, 0⟩).overlay = some false ∧
      (tryEnter .rejected ⟨none, false, 0, 0⟩).created = 0 + 1 ∧
      showOverlay (tryEnter .rejected ⟨none, false, 0, 0⟩) =
        tryEnter .rejected ⟨none, false, 0, 0⟩ ∧
      (showOverlay (showOverlay ⟨none, false, 0, 0⟩)).created = 0 + 1) ∧
    cleanup ⟨none, false, 0, 0⟩ = ⟨none, false, 0, 0⟩ ∧
    (∀ u : VrState, (onEnterVR u).overlay = none) ∧
    (∀ u : VrState, u.inVR = false → (tryEnter .success u).overlay = none) ∧
    (∀ u : VrState, u.overlay = some false → (btnClick .success u).overlay = none) :=
  overlay_lifecycle ⟨none, false, 0, 0⟩ rfl rfl

/-- Claim C10: a fresh overlay's button issues at most one entry request over
any sequence of clicks; after a rejected single request the overlay remains
displayed (with its handler consumed) and no later click ever issues another
request. -/
theorem overlay_button_single_use (evs : List EnterResult) (s : VrState)
    (h : s.overlay = some false) :
    (runClicks evs s).requests ≤ s.requests + 1 ∧
    (runClicks evs (btnClick .rejected s)).requests = s.requests + 1 ∧
    (runClicks evs (btnClick .rejected s)).overlay = some true := by
  have hrej : btnClick .rejected s =
      { s with overlay := some true, requests := s.requests + 1 } := by
    rw [btnClick, h]
    rfl
  have hinert : runClicks evs (btnClick .rejected s) = btnClick .rejected s := by
    apply runClicks_inert
    rw [hrej]
    exact Or.inr rfl
  refine ⟨?_, by rw [hinert, hrej], by rw [hinert, hrej]⟩
  cases evs with
  | nil => exact Nat.le_succ s.requests
  | cons r rest =>
    rw [runClicks, runClicks_inert rest (btnClick r s) (btnClick_fresh r s h).1,
      (btnClick_fresh r s h).2]

/-- Witness for `overlay_button_single_use`: a freshly shown overlay clicked
three times, the first click's request rejected. -/
theorem overlay_button_single_use_witness :
    (runClicks [.rejected, .rejected, .success] ⟨some false, false, 0, 1⟩).requests ≤
      0 + 1 ∧
    (runClicks [.rejected, .rejected, .success]
      (btnClick .rejected ⟨some false, false, 0, 1⟩)).requests = 0 + 1 ∧
    (runClicks [.rejected, .rejected, .success]
      (btnClick .rejected ⟨some false, false, 0, 1⟩)).overlay = some true :=
  overlay_button_single_use [.rejected, .rejected, .success]
    ⟨some false, false, 0, 1⟩ rfl

end VR
